import Mathlib

/-!
# Visualizer3D (src/auv/vio/visualizer_3d.cpp)

A shallow embedding of the scene mutators of `bm::vio::Visualizer3D` and the
properties of its registry, its renderer calls and its widget names.

The translation unit only holds the member functions.  The class declaration
(`vio/visualizer_3d.hpp`) and the renderer (`cv::viz::Viz3d`) are not part of
it; the few types they contribute are modelled below and marked as such.
-/

set_option autoImplicit false

namespace bm
namespace vio

/-! ## Value types -/

/-- Unsigned identifier of a camera or a landmark (`uid_t`).  Unbounded here:
every property below that holds for all naturals holds for every unsigned
width. -/
abbrev uid_t := Nat

/-- Carrier of the `double` entries of poses and positions.  The mutators only
copy these entries; the single computation, `cols / 2.0`, is exact. -/
abbrev Scalar := ℚ

/-- Embedding of `Eigen::Vector3d`. -/
abbrev Vector3d := Scalar × Scalar × Scalar

/-- Embedding of `Eigen::Matrix3d` and `cv::Matx33d`, as three rows. -/
abbrev Matrix3d := Vector3d × Vector3d × Vector3d

/-- One row of an `Eigen::Matrix4d`. -/
abbrev Vector4d := Scalar × Scalar × Scalar × Scalar

/-- Embedding of `Eigen::Matrix4d`, as four rows. -/
abbrev Matrix4d := Vector4d × Vector4d × Vector4d × Vector4d

/-- Embedding of `cv::Affine3d`, built from a rotation block and a translation. -/
structure Affine3d where
  R : Matrix3d
  t : Vector3d
deriving DecidableEq, Repr

/-- Embedding of `Image1b`: only the dimensions matter to the mutators. -/
structure Image1b where
  rows : Nat
  cols : Nat
deriving DecidableEq, Repr

/-- Embedding of `cv::Mat::empty()`: no element. -/
def Image1b.empty (im : Image1b) : Bool :=
  im.rows * im.cols == 0

/-- Embedding of `cv::viz::Color` values used by the visualizer. -/
inductive Color where
  | red
  | blue
  | white
  | black
deriving DecidableEq, Repr

/-- Embedding of `cv::viz::WCameraPosition`: the visual descriptor handed to the renderer. -/
structure WCameraPosition where
  K : Option Matrix3d
  image : Option Image1b
  scale : Scalar
  color : Color
deriving DecidableEq, Repr

/-- Modelled from the spec: the observation payload declared in the missing
header; it is accepted by `AddLandmarkObservation` and not retained. -/
structure LandmarkObservation where
  pixel : Scalar × Scalar
deriving DecidableEq, Repr

/-- Modelled from the spec: `Visualizer3D::LandmarkData` of the missing header,
a landmark id, its world position and the ordered sequence of observing camera
ids.  The two-argument constructor leaves the sequence empty. -/
structure LandmarkData where
  lmk_id : uid_t
  t_world_lmk : Vector3d
  obs_cam_ids : List uid_t
deriving DecidableEq, Repr

/-- The constructor `LandmarkData(lmk_id, t_world_lmk)`. -/
def LandmarkData.new (lmk_id : uid_t) (t_world_lmk : Vector3d) : LandmarkData :=
  { lmk_id := lmk_id, t_world_lmk := t_world_lmk, obs_cam_ids := [] }

/-! ## Widget names -/

/-- Decimal digit of a value below ten. -/
def digitChar (d : Nat) : Char :=
  Char.ofNat (48 + d)

/-- Digits of `n`, most significant first, by recursion on a step budget. -/
def to_chars_fuel : Nat → Nat → List Char
  | 0, _ => []
  | fuel + 1, n =>
    if n < 10 then [digitChar n]
    else to_chars_fuel fuel (n / 10) ++ [digitChar (n % 10)]

/-- The characters of `std::to_string` on an unsigned value: decimal, most
significant digit first, no leading zero.  The budget `n + 1` always
suffices (`decode_to_chars`). -/
def to_chars (n : Nat) : List Char :=
  to_chars_fuel (n + 1) n

/-- Embedding of `std::to_string` on an unsigned value. -/
def to_string (n : Nat) : String :=
  String.mk (to_chars n)

/-- Embedding of `GetCameraPoseWidgetName`. -/
def GetCameraPoseWidgetName (cam_id : uid_t) : String :=
  "cam_" ++ to_string cam_id

/-- Embedding of `GetLandmarkWidgetName`. -/
def GetLandmarkWidgetName (lmk_id : uid_t) : String :=
  "lmk_" ++ to_string lmk_id

/-- Embedding of `EigenMatrix4dToCvAffine3d`: the rotation is the top-left 3x3 block, the
translation the top three entries of the last column. -/
def EigenMatrix4dToCvAffine3d (T_world_cam : Matrix4d) : Affine3d :=
  match T_world_cam with
  | ((a00, a01, a02, a03), (a10, a11, a12, a13), (a20, a21, a22, a23), _) =>
    { R := ((a00, a01, a02), (a10, a11, a12), (a20, a21, a22)),
      t := (a03, a13, a23) }

/-! ## The renderer -/

/-- Modelled from the spec: a named visual held by the renderer, with the
transform it is drawn at. -/
structure WidgetActor where
  name : String
  widget : WCameraPosition
  pose : Affine3d
deriving DecidableEq, Repr

/-- Modelled from the spec: the Renderer collaborator (`cv::viz::Viz3d`), which
is not part of this repository: the named visuals it holds and its display
configuration. -/
structure Viz3d where
  widgets : List WidgetActor
  full_screen : Bool
  background : Color
deriving DecidableEq, Repr

/-- Number of visuals the renderer holds under `name`. -/
def Viz3d.count (v : Viz3d) (name : String) : Nat :=
  (v.widgets.filter (fun w => w.name == name)).length

/-- Whether the renderer holds a visual under `name`. -/
def Viz3d.has (v : Viz3d) (name : String) : Bool :=
  v.widgets.any (fun w => w.name == name)

/-- Transform of the visual held under `name`. -/
def Viz3d.poseOf (v : Viz3d) (name : String) : Option Affine3d :=
  (v.widgets.find? (fun w => w.name == name)).map WidgetActor.pose

/-- Modelled from the spec: `RemoveWidget(name)`; the visual is dropped. -/
def Viz3d.erase (v : Viz3d) (name : String) : Viz3d :=
  { v with widgets := v.widgets.filter (fun w => !(w.name == name)) }

/-- Modelled from the spec: `ShowWidget(name, visual, transform)`,
create-or-replace of a named visual. -/
def Viz3d.show (v : Viz3d) (name : String) (widget : WCameraPosition) (pose : Affine3d) :
    Viz3d :=
  { v with
    widgets := { name := name, widget := widget, pose := pose } :: (v.erase name).widgets }

/-- Modelled from the spec: the effect of `UpdateWidgetPose(name, transform)` on
a visual that exists; only its transform is replaced. -/
def Viz3d.setPose (v : Viz3d) (name : String) (pose : Affine3d) : Viz3d :=
  { v with
    widgets := v.widgets.map (fun w => if w.name == name then { w with pose := pose } else w) }

/-! ## The visualizer object -/

/-- Lookup in `lmk_data_` (`std::unordered_map::find`). -/
def lmk_find (lmk_id : uid_t) : List (uid_t × LandmarkData) → Option LandmarkData
  | [] => none
  | (k, d) :: rest => if k = lmk_id then some d else lmk_find lmk_id rest

/-- In-place change of the record that `lmk_data_.at(lmk_id)` refers to. -/
def lmk_modify (lmk_id : uid_t) (f : LandmarkData → LandmarkData) :
    List (uid_t × LandmarkData) → List (uid_t × LandmarkData)
  | [] => []
  | (k, d) :: rest =>
    if k = lmk_id then (k, f d) :: rest else (k, d) :: lmk_modify lmk_id f rest

/-- Modelled from the spec: the data members of `Visualizer3D` that the member
functions use (their declarations are in the missing header): the renderer, the
set of widget names, the landmark records keyed by id, the mutex (`true` while
held) and whether the redraw thread has been spawned. -/
structure Visualizer3D where
  viz_ : Viz3d
  widget_names_ : List String
  lmk_data_ : List (uid_t × LandmarkData)
  viz_lock_ : Bool
  redraw_thread_ : Bool
deriving DecidableEq, Repr

/-- The object right after construction. -/
def Visualizer3D.init : Visualizer3D :=
  { viz_ := { widgets := [], full_screen := false, background := Color.black },
    widget_names_ := [],
    lmk_data_ := [],
    viz_lock_ := false,
    redraw_thread_ := false }

/-- What a member function does to shared state, in program order. -/
inductive Event where
  | lock
  | unlock
  | widget_names_
  | lmk_data_
  | viz_
deriving DecidableEq, Repr

/-- Ways a member function can stop without returning. -/
inductive Err where
  | unknownCamera
  | unknownLandmark
  | widgetDoesNotExist
  | outOfRange
  | deadlock
deriving DecidableEq, Repr

/-- The object together with the events of the calls made so far. -/
structure Ctx where
  obj : Visualizer3D
  events : List Event
deriving DecidableEq, Repr

/-- Result of running code: it returned, or it stopped at a failed check, each
with the object and the events at that point. -/
inductive Outcome (α : Type) where
  | ok (a : α) (c : Ctx)
  | abort (e : Err) (c : Ctx)
deriving DecidableEq, Repr

/-- Code acting on the object. -/
def VizM (α : Type) : Type := Ctx → Outcome α

/-- Sequencing: a failed check stops the rest. -/
def VizM.bind {α β : Type} (m : VizM α) (f : α → VizM β) : VizM β :=
  fun c =>
    match m c with
    | Outcome.ok a c1 => f a c1
    | Outcome.abort e c1 => Outcome.abort e c1

instance : Monad VizM where
  pure a := fun c => Outcome.ok a c
  bind := VizM.bind

/-- The object an outcome ends with. -/
def Outcome.obj {α : Type} : Outcome α → Visualizer3D
  | Outcome.ok _ c => c.obj
  | Outcome.abort _ c => c.obj

/-- The events an outcome ends with. -/
def Outcome.events {α : Type} : Outcome α → List Event
  | Outcome.ok _ c => c.events
  | Outcome.abort _ c => c.events

/-- The failed check of an outcome, if any. -/
def Outcome.err {α : Type} : Outcome α → Option Err
  | Outcome.ok _ _ => none
  | Outcome.abort e _ => some e

/-- Record an event. -/
def emit (e : Event) : VizM Unit :=
  fun c => Outcome.ok () { c with events := c.events ++ [e] }

/-- Read the object. -/
def getObj : VizM Visualizer3D :=
  fun c => Outcome.ok c.obj c

/-- Replace the object. -/
def setObj (o : Visualizer3D) : VizM Unit :=
  fun c => Outcome.ok () { c with obj := o }

/-- Stop with an error. -/
def fail {α : Type} (e : Err) : VizM α :=
  fun c => Outcome.abort e c

/-- The `CHECK(cond)` of glog: fatal when the condition is false. -/
def CHECK (cond : Bool) (e : Err) : VizM Unit :=
  if cond then pure () else fail e

/-- The `viz_lock_.lock()` call.  Sequentially, locking a held mutex never
returns. -/
def viz_lock_lock : VizM Unit := do
  let o ← getObj
  if o.viz_lock_ then fail Err.deadlock
  else do
    setObj { o with viz_lock_ := true }
    emit Event.lock

/-- The `viz_lock_.unlock()` call. -/
def viz_lock_unlock : VizM Unit := do
  let o ← getObj
  setObj { o with viz_lock_ := false }
  emit Event.unlock

/-- The `widget_names_.count(name)` call. -/
def widget_names_count (name : String) : VizM Nat := do
  emit Event.widget_names_
  let o ← getObj
  pure (if name ∈ o.widget_names_ then 1 else 0)

/-- The `widget_names_.insert(name)` call. -/
def widget_names_insert (name : String) : VizM Unit := do
  emit Event.widget_names_
  let o ← getObj
  setObj { o with
    widget_names_ :=
      if name ∈ o.widget_names_ then o.widget_names_ else name :: o.widget_names_ }

/-- The `viz_.removeWidget(name)` call; OpenCV asserts that the widget exists. -/
def viz_removeWidget (name : String) : VizM Unit := do
  emit Event.viz_
  let o ← getObj
  CHECK (o.viz_.has name) Err.widgetDoesNotExist
  setObj { o with viz_ := o.viz_.erase name }

/-- The `viz_.showWidget(name, widget, pose)` call. -/
def viz_showWidget (name : String) (widget : WCameraPosition) (pose : Affine3d) :
    VizM Unit := do
  emit Event.viz_
  let o ← getObj
  setObj { o with viz_ := o.viz_.show name widget pose }

/-- The `viz_.updateWidgetPose(name, pose)` call; fails when `name` was never
shown. -/
def viz_updateWidgetPose (name : String) (pose : Affine3d) : VizM Unit := do
  emit Event.viz_
  let o ← getObj
  CHECK (o.viz_.has name) Err.widgetDoesNotExist
  setObj { o with viz_ := o.viz_.setPose name pose }

/-- The `viz_.setFullScreen(mode)` call. -/
def viz_setFullScreen (mode : Bool) : VizM Unit := do
  emit Event.viz_
  let o ← getObj
  setObj { o with viz_ := { o.viz_ with full_screen := mode } }

/-- The `viz_.setBackgroundColor(color)` call. -/
def viz_setBackgroundColor (color : Color) : VizM Unit := do
  emit Event.viz_
  let o ← getObj
  setObj { o with viz_ := { o.viz_ with background := color } }

/-- The `lmk_data_.count(lmk_id)` call. -/
def lmk_data_count (lmk_id : uid_t) : VizM Nat := do
  emit Event.lmk_data_
  let o ← getObj
  pure (if (lmk_find lmk_id o.lmk_data_).isSome then 1 else 0)

/-- The `lmk_data_.emplace(lmk_id, data)` call: inserts only when the key is
absent (`std::unordered_map::emplace`). -/
def lmk_data_emplace (lmk_id : uid_t) (data : LandmarkData) : VizM Unit := do
  emit Event.lmk_data_
  let o ← getObj
  setObj { o with
    lmk_data_ :=
      if (lmk_find lmk_id o.lmk_data_).isSome then o.lmk_data_
      else (lmk_id, data) :: o.lmk_data_ }

/-- The `lmk_data_.at(lmk_id).obs_cam_ids.emplace_back(cam_id)` statement;
`at` throws when the key is absent. -/
def lmk_data_at_obs_emplace_back (lmk_id cam_id : uid_t) : VizM Unit := do
  emit Event.lmk_data_
  let o ← getObj
  CHECK (lmk_find lmk_id o.lmk_data_).isSome Err.outOfRange
  setObj { o with
    lmk_data_ := lmk_modify lmk_id
      (fun d => { d with obs_cam_ids := d.obs_cam_ids ++ [cam_id] }) o.lmk_data_ }

/-! ## The member functions -/

/-- The intrinsics `K` built at the top of `AddCameraPose`. -/
def AddCameraPose.K (left_image : Image1b) : Matrix3d :=
  ((458, 0, (left_image.cols : Scalar) / 2), (0, 458, (left_image.rows : Scalar) / 2),
    (0, 0, 1))

/-- The local `widget_realtime` of `AddCameraPose`: a red frustum, carrying the
image when there is one. -/
def AddCameraPose.widget_realtime (left_image : Image1b) : WCameraPosition :=
  if !left_image.empty then
    { K := some (AddCameraPose.K left_image), image := some left_image, scale := 1,
      color := Color.red }
  else
    { K := some (AddCameraPose.K left_image), image := none, scale := 1, color := Color.red }

/-- The local `widget_keyframe` of `AddCameraPose`: a blue frustum. -/
def AddCameraPose.widget_keyframe (left_image : Image1b) : WCameraPosition :=
  { K := some (AddCameraPose.K left_image), image := none, scale := 1, color := Color.blue }

/-- Embedding of `Visualizer3D::AddCameraPose`. -/
def AddCameraPose (cam_id : uid_t) (left_image : Image1b) (T_world_cam : Matrix4d)
    (is_keyframe : Bool) : VizM Unit := do
  let T_world_cam_cv := EigenMatrix4dToCvAffine3d T_world_cam
  -- REALTIME CAMERA
  let widget_realtime := AddCameraPose.widget_realtime left_image
  viz_lock_lock
  if (← widget_names_count "cam_realtime") != 0 then
    viz_removeWidget "cam_realtime"
  viz_showWidget "cam_realtime" widget_realtime T_world_cam_cv
  widget_names_insert "cam_realtime"
  -- KEYFRAME CAMERA
  if is_keyframe then
    let widget_name := GetCameraPoseWidgetName cam_id
    let widget_keyframe := AddCameraPose.widget_keyframe left_image
    viz_showWidget widget_name widget_keyframe T_world_cam_cv
  viz_lock_unlock

/-- Embedding of `Visualizer3D::UpdateCameraPose`. -/
def UpdateCameraPose (cam_id : uid_t) (T_world_cam : Matrix4d) : VizM Unit := do
  let widget_name := GetCameraPoseWidgetName cam_id
  CHECK ((← widget_names_count widget_name) != 0) Err.unknownCamera
  let T_world_cam_cv := EigenMatrix4dToCvAffine3d T_world_cam
  viz_lock_lock
  viz_updateWidgetPose widget_name T_world_cam_cv
  viz_lock_unlock

/-- Embedding of `Visualizer3D::AddOrUpdateLandmark`. -/
def AddOrUpdateLandmark (lmk_id : uid_t) (t_world_lmk : Vector3d) : VizM Unit :=
  lmk_data_emplace lmk_id (LandmarkData.new lmk_id t_world_lmk)

/-- Embedding of `Visualizer3D::AddLandmarkObservation`. -/
def AddLandmarkObservation (cam_id lmk_id : uid_t) (_lmk_obs : LandmarkObservation) :
    VizM Unit := do
  CHECK ((← lmk_data_count lmk_id) != 0) Err.unknownLandmark
  lmk_data_at_obs_emplace_back lmk_id cam_id

/-- The identity transform, the default pose of `showWidget`. -/
def Affine3d.Identity : Affine3d :=
  { R := ((1, 0, 0), (0, 1, 0), (0, 0, 1)), t := (0, 0, 0) }

/-- Embedding of `Visualizer3D::Start`.  The world-origin marker is a default
`WCameraPosition` shown at the identity; the redraw thread only asks the
renderer to advance frames and is recorded as spawned. -/
def Start : VizM Unit := do
  viz_showWidget "world_origin"
    { K := none, image := none, scale := 1, color := Color.white } Affine3d.Identity
  viz_setFullScreen true
  viz_setBackgroundColor Color.black
  let o ← getObj
  setObj { o with redraw_thread_ := true }

/-- A call of one of the public operations. -/
inductive Op where
  | Start
  | AddCameraPose (cam_id : uid_t) (left_image : Image1b) (T_world_cam : Matrix4d)
      (is_keyframe : Bool)
  | UpdateCameraPose (cam_id : uid_t) (T_world_cam : Matrix4d)
  | AddOrUpdateLandmark (lmk_id : uid_t) (t_world_lmk : Vector3d)
  | AddLandmarkObservation (cam_id lmk_id : uid_t) (lmk_obs : LandmarkObservation)
deriving DecidableEq, Repr

/-- The member function an operation stands for. -/
def Op.call : Op → VizM Unit
  | Op.Start => bm.vio.Start
  | Op.AddCameraPose c im T k => bm.vio.AddCameraPose c im T k
  | Op.UpdateCameraPose c T => bm.vio.UpdateCameraPose c T
  | Op.AddOrUpdateLandmark l t => bm.vio.AddOrUpdateLandmark l t
  | Op.AddLandmarkObservation c l o => bm.vio.AddLandmarkObservation c l o

/-- A sequence of calls, one after the other; a fatal check ends it. -/
def run : List Op → VizM Unit
  | [] => pure ()
  | op :: rest => do
    op.call
    run rest

/-- Run code on an object, with an empty event record. -/
def exec (m : VizM Unit) (s : Visualizer3D) : Outcome Unit :=
  m { obj := s, events := [] }

/-- The identity pose as a 4x4 matrix. -/
def Matrix4d.Identity : Matrix4d :=
  ((1, 0, 0, 0), (0, 1, 0, 0), (0, 0, 1, 0), (0, 0, 0, 1))

/-- A pure translation as a 4x4 matrix. -/
def Matrix4d.translate (x y z : Scalar) : Matrix4d :=
  ((1, 0, 0, x), (0, 1, 0, y), (0, 0, 1, z), (0, 0, 0, 1))

/-- The 4x4 homogeneous matrix of a `cv::Affine3d` (its `matrix` member): the
rotation beside the translation, over the row `(0, 0, 0, 1)`. -/
def Affine3d.matrix (a : Affine3d) : Matrix4d :=
  match a.R, a.t with
  | ((r00, r01, r02), (r10, r11, r12), (r20, r21, r22)), (t0, t1, t2) =>
    ((r00, r01, r02, t0), (r10, r11, r12, t1), (r20, r21, r22, t2), (0, 0, 0, 1))

/-- The first three rows of a 4x4 matrix: the rotation and the translation of a
pose. -/
def Matrix4d.topRows (T : Matrix4d) : Vector4d × Vector4d × Vector4d :=
  (T.1, T.2.1, T.2.2.1)

/-- The last row of a 4x4 matrix; it is `(0, 0, 0, 1)` for a rigid transform. -/
def Matrix4d.bottomRow (T : Matrix4d) : Vector4d :=
  T.2.2.2

/-- An image without pixels. -/
def Image1b.none : Image1b :=
  { rows := 0, cols := 0 }

/-- An `AddCameraPose` call by its arguments. -/
structure CameraCall where
  cam_id : uid_t
  left_image : Image1b
  T_world_cam : Matrix4d
  is_keyframe : Bool
deriving DecidableEq, Repr

/-- The operation of a camera call. -/
def CameraCall.op (x : CameraCall) : Op :=
  Op.AddCameraPose x.cam_id x.left_image x.T_world_cam x.is_keyframe

/-- What holds of the object between calls: the mutex is free, only the
realtime name is registered, and a registered name is shown by the renderer. -/
def Visualizer3D.Consistent (s : Visualizer3D) : Prop :=
  s.viz_lock_ = false ∧ (∀ n ∈ s.widget_names_, n = "cam_realtime") ∧
    ("cam_realtime" ∈ s.widget_names_ → s.viz_.has "cam_realtime" = true)

/-- A read or write of the registry (`widget_names_`, `lmk_data_`). -/
def Event.isRegistry : Event → Bool
  | Event.widget_names_ => true
  | Event.lmk_data_ => true
  | _ => false

/-- A renderer call. -/
def Event.isRenderer : Event → Bool
  | Event.viz_ => true
  | _ => false

/-- Scan of an event sequence, `held` telling whether the operation holds the
mutex: every event picked by `guarded` happens while it is held. -/
def underLock (guarded : Event → Bool) : Bool → List Event → Bool
  | _, [] => true
  | _, Event.lock :: rest => underLock guarded true rest
  | _, Event.unlock :: rest => underLock guarded false rest
  | held, e :: rest => (!guarded e || held) && underLock guarded held rest

/-- Whether the operation holds the mutex after an event sequence. -/
def heldAfter : Bool → List Event → Bool
  | held, [] => held
  | _, Event.lock :: rest => heldAfter true rest
  | _, Event.unlock :: rest => heldAfter false rest
  | held, _ :: rest => heldAfter held rest

/-- Value of a digit sequence, most significant digit first. -/
def decode (l : List Char) : Nat :=
  l.foldl (fun a c => 10 * a + (c.toNat - 48)) 0

/-- The locking discipline on the event sequence of one operation: every
registry access and every renderer call happens while the mutex is held, and
the mutex is free at the end. -/
def lockingDiscipline (events : List Event) : Bool :=
  underLock (fun e => e.isRegistry || e.isRenderer) false events && !heldAfter false events

/-! ## Widget names: lemmas -/

theorem digitChar_toNat (d : Nat) (h : d < 10) : (digitChar d).toNat = 48 + d := by
  interval_cases d <;> rfl

theorem decode_append_single (l : List Char) (c : Char) :
    decode (l ++ [c]) = 10 * decode l + (c.toNat - 48) := by
  simp [decode, List.foldl_append]

theorem decode_to_chars_fuel (fuel : Nat) :
    ∀ n, n < fuel → decode (to_chars_fuel fuel n) = n := by
  induction fuel with
  | zero => intro n h; omega
  | succ f ih =>
    intro n h
    unfold to_chars_fuel
    by_cases h10 : n < 10
    · rw [if_pos h10]
      simp [decode, digitChar_toNat n h10]
    · rw [if_neg h10, decode_append_single, ih (n / 10) (by omega),
        digitChar_toNat _ (Nat.mod_lt _ (by decide))]
      omega

theorem decode_to_chars (n : Nat) : decode (to_chars n) = n :=
  decode_to_chars_fuel (n + 1) n (Nat.lt_succ_self n)

theorem to_chars_injective : Function.Injective to_chars := by
  intro a b h
  have := congrArg decode h
  simpa [decode_to_chars] using this

theorem to_string_injective : Function.Injective to_string := by
  intro a b h
  exact to_chars_injective (congrArg String.data h)

theorem to_chars_fuel_head (fuel : Nat) :
    ∀ n, n < fuel → ∃ d rest, d < 10 ∧ to_chars_fuel fuel n = digitChar d :: rest := by
  induction fuel with
  | zero => intro n h; omega
  | succ f ih =>
    intro n h
    unfold to_chars_fuel
    by_cases h10 : n < 10
    · exact ⟨n, [], h10, by rw [if_pos h10]⟩
    · obtain ⟨d, rest, hd, hr⟩ := ih (n / 10) (by omega)
      exact ⟨d, rest ++ [digitChar (n % 10)], hd, by rw [if_neg h10, hr]; rfl⟩

theorem to_chars_head (n : Nat) : ∃ d rest, d < 10 ∧ to_chars n = digitChar d :: rest :=
  to_chars_fuel_head (n + 1) n (Nat.lt_succ_self n)

theorem digitChar_ne_r (d : Nat) (h : d < 10) : digitChar d ≠ 'r' := by
  intro he
  have := congrArg Char.toNat he
  rw [digitChar_toNat d h] at this
  have h2 : ('r' : Char).toNat = 114 := rfl
  omega

theorem GetCameraPoseWidgetName_data (c : uid_t) :
    (GetCameraPoseWidgetName c).data = ['c', 'a', 'm', '_'] ++ to_chars c := by
  simp [GetCameraPoseWidgetName, to_string]

theorem GetLandmarkWidgetName_data (l : uid_t) :
    (GetLandmarkWidgetName l).data = ['l', 'm', 'k', '_'] ++ to_chars l := by
  simp [GetLandmarkWidgetName, to_string]

theorem GetCameraPoseWidgetName_injective : Function.Injective GetCameraPoseWidgetName := by
  intro a b h
  have := congrArg String.data h
  rw [GetCameraPoseWidgetName_data, GetCameraPoseWidgetName_data] at this
  exact to_chars_injective (List.append_cancel_left this)

theorem GetLandmarkWidgetName_injective : Function.Injective GetLandmarkWidgetName := by
  intro a b h
  have := congrArg String.data h
  rw [GetLandmarkWidgetName_data, GetLandmarkWidgetName_data] at this
  exact to_chars_injective (List.append_cancel_left this)

theorem GetCameraPoseWidgetName_ne_cam_realtime (c : uid_t) :
    GetCameraPoseWidgetName c ≠ "cam_realtime" := by
  intro h
  have := congrArg String.data h
  rw [GetCameraPoseWidgetName_data] at this
  obtain ⟨d, rest, hd, hr⟩ := to_chars_head c
  rw [hr] at this
  have h4 : digitChar d = 'r' := by
    have := congrArg (fun l => l.get? 4) this
    simpa using this
  exact digitChar_ne_r d hd h4

theorem GetCameraPoseWidgetName_ne_world_origin (c : uid_t) :
    GetCameraPoseWidgetName c ≠ "world_origin" := by
  intro h
  have := congrArg String.data h
  rw [GetCameraPoseWidgetName_data] at this
  have := congrArg (fun l => l.get? 0) this
  simp at this

theorem GetLandmarkWidgetName_ne_cam_realtime (l : uid_t) :
    GetLandmarkWidgetName l ≠ "cam_realtime" := by
  intro h
  have := congrArg String.data h
  rw [GetLandmarkWidgetName_data] at this
  have := congrArg (fun l => l.get? 0) this
  simp at this

theorem GetLandmarkWidgetName_ne_world_origin (l : uid_t) :
    GetLandmarkWidgetName l ≠ "world_origin" := by
  intro h
  have := congrArg String.data h
  rw [GetLandmarkWidgetName_data] at this
  have := congrArg (fun l => l.get? 0) this
  simp at this

theorem GetCameraPoseWidgetName_ne_GetLandmarkWidgetName (c l : uid_t) :
    GetCameraPoseWidgetName c ≠ GetLandmarkWidgetName l := by
  intro h
  have := congrArg String.data h
  rw [GetCameraPoseWidgetName_data, GetLandmarkWidgetName_data] at this
  have := congrArg (fun l => l.get? 0) this
  simp at this

/-! ## The renderer: lemmas -/

theorem Viz3d.count_show_self (v : Viz3d) (n : String) (w : WCameraPosition) (p : Affine3d) :
    (v.show n w p).count n = 1 := by
  simp [Viz3d.show, Viz3d.erase, Viz3d.count, List.filter_cons, List.filter_filter]

theorem Viz3d.count_erase_of_ne (v : Viz3d) (n m : String) (h : m ≠ n) :
    (v.erase n).count m = v.count m := by
  simp only [Viz3d.erase, Viz3d.count, List.filter_filter]
  congr 1
  apply List.filter_congr
  intro x _
  by_cases hx : x.name = m
  · simp [hx, h]
  · simp [hx]

theorem Viz3d.count_show_of_ne (v : Viz3d) (n m : String) (w : WCameraPosition)
    (p : Affine3d) (h : m ≠ n) : (v.show n w p).count m = v.count m := by
  have h1 := Viz3d.count_erase_of_ne v n m h
  simp only [Viz3d.count] at h1
  simp [Viz3d.show, Viz3d.count, List.filter_cons, Ne.symm h, h1]

theorem Viz3d.poseOf_show_self (v : Viz3d) (n : String) (w : WCameraPosition) (p : Affine3d) :
    (v.show n w p).poseOf n = some p := by
  simp [Viz3d.show, Viz3d.poseOf]

theorem Viz3d.find_erase_of_ne (l : List WidgetActor) (n m : String) (h : m ≠ n) :
    (l.filter (fun w => !(w.name == n))).find? (fun w => w.name == m) =
      l.find? (fun w => w.name == m) := by
  induction l with
  | nil => rfl
  | cons x xs ih =>
    by_cases hx : x.name = n
    · have hm : ¬ x.name = m := fun e => h (e.symm.trans hx)
      simp [List.filter_cons, List.find?_cons, hx, hm, ih, Ne.symm h]
    · by_cases hm : x.name = m
      · subst hm
        simp [List.filter_cons, List.find?_cons, hx]
      · simp [List.filter_cons, List.find?_cons, hx, hm, ih]

theorem Viz3d.poseOf_erase_of_ne (v : Viz3d) (n m : String) (h : m ≠ n) :
    (v.erase n).poseOf m = v.poseOf m := by
  simp only [Viz3d.erase, Viz3d.poseOf, Viz3d.find_erase_of_ne v.widgets n m h]

theorem Viz3d.poseOf_show_of_ne (v : Viz3d) (n m : String) (w : WCameraPosition)
    (p : Affine3d) (h : m ≠ n) : (v.show n w p).poseOf m = v.poseOf m := by
  have hb : (n == m) = false := by simp [Ne.symm h]
  have h1 := Viz3d.find_erase_of_ne v.widgets n m h
  simp only [Viz3d.show, Viz3d.poseOf, Viz3d.erase, List.find?_cons, hb, h1]

theorem Viz3d.has_show_self (v : Viz3d) (n : String) (w : WCameraPosition) (p : Affine3d) :
    (v.show n w p).has n = true := by
  simp [Viz3d.show, Viz3d.has]

theorem Viz3d.has_show_of_has (v : Viz3d) (n m : String) (w : WCameraPosition)
    (p : Affine3d) (h : v.has m = true) : (v.show n w p).has m = true := by
  by_cases hnm : m = n
  · subst hnm; exact Viz3d.has_show_self v m w p
  · simp only [Viz3d.has, List.any_eq_true, beq_iff_eq] at h
    obtain ⟨x, hx, hxm⟩ := h
    simp only [Viz3d.show, Viz3d.erase, Viz3d.has, List.any_eq_true, beq_iff_eq]
    refine ⟨x, ?_, hxm⟩
    apply List.mem_cons_of_mem
    simp [List.mem_filter, hx, hxm, hnm]

/-! ## Running code: lemmas -/

theorem bind_apply {α β : Type} (m : VizM α) (f : α → VizM β) (c : Ctx) :
    (m >>= f) c = match m c with
      | Outcome.ok a c1 => f a c1
      | Outcome.abort e c1 => Outcome.abort e c1 := rfl

theorem pure_apply {α : Type} (a : α) (c : Ctx) : (pure a : VizM α) c = Outcome.ok a c := rfl

theorem ite_apply_ctx {α : Type} (p : Prop) [Decidable p] (f g : VizM α) (c : Ctx) :
    (if p then f else g) c = if p then f c else g c := by
  split <;> rfl

theorem AddCameraPose_apply (cam_id : uid_t) (im : Image1b) (T : Matrix4d) (k : Bool)
    (s : Visualizer3D) (ev : List Event) (hl : s.viz_lock_ = false)
    (hw : "cam_realtime" ∈ s.widget_names_ → s.viz_.has "cam_realtime" = true) :
    AddCameraPose cam_id im T k { obj := s, events := ev } = Outcome.ok ()
      { obj := { s with
          viz_ :=
            if k then
              (((if "cam_realtime" ∈ s.widget_names_ then s.viz_.erase "cam_realtime"
                else s.viz_).show "cam_realtime"
                (AddCameraPose.widget_realtime im) (EigenMatrix4dToCvAffine3d T)).show
                (GetCameraPoseWidgetName cam_id) (AddCameraPose.widget_keyframe im)
                (EigenMatrix4dToCvAffine3d T))
            else
              ((if "cam_realtime" ∈ s.widget_names_ then s.viz_.erase "cam_realtime"
                else s.viz_).show "cam_realtime"
                (AddCameraPose.widget_realtime im) (EigenMatrix4dToCvAffine3d T)),
          widget_names_ :=
            if "cam_realtime" ∈ s.widget_names_ then s.widget_names_
            else "cam_realtime" :: s.widget_names_ },
        events := ev ++ [Event.lock, Event.widget_names_] ++
          (if "cam_realtime" ∈ s.widget_names_ then [Event.viz_] else []) ++
          [Event.viz_, Event.widget_names_] ++ (if k then [Event.viz_] else []) ++
          [Event.unlock] } := by
  obtain ⟨vz, wn, lm, lk, rt⟩ := s
  simp only at hl hw
  subst hl
  by_cases h : "cam_realtime" ∈ wn
  · have hh := hw h
    cases k <;>
    simp [AddCameraPose, viz_lock_lock, viz_lock_unlock, widget_names_count,
      widget_names_insert, viz_removeWidget, viz_showWidget, CHECK, emit, getObj, setObj, fail,
      bind_apply, pure_apply, ite_apply_ctx, h, hh]
  · cases k <;>
    simp [AddCameraPose, viz_lock_lock, viz_lock_unlock, widget_names_count,
      widget_names_insert, viz_removeWidget, viz_showWidget, CHECK, emit, getObj, setObj, fail,
      bind_apply, pure_apply, ite_apply_ctx, h]

theorem UpdateCameraPose_apply_absent (cam_id : uid_t) (T : Matrix4d) (s : Visualizer3D)
    (ev : List Event) (h : GetCameraPoseWidgetName cam_id ∉ s.widget_names_) :
    UpdateCameraPose cam_id T { obj := s, events := ev } =
      Outcome.abort Err.unknownCamera { obj := s, events := ev ++ [Event.widget_names_] } := by
  simp [UpdateCameraPose, widget_names_count, CHECK, emit, getObj, fail, bind_apply,
    pure_apply, h]

theorem UpdateCameraPose_events (cam_id : uid_t) (T : Matrix4d) (s : Visualizer3D) :
    (UpdateCameraPose cam_id T { obj := s, events := [] }).events ∈
      [[Event.widget_names_],
       [Event.widget_names_, Event.lock, Event.viz_],
       [Event.widget_names_, Event.lock, Event.viz_, Event.unlock]] ∧
    ((UpdateCameraPose cam_id T { obj := s, events := [] }).err = none →
      (UpdateCameraPose cam_id T { obj := s, events := [] }).events =
        [Event.widget_names_, Event.lock, Event.viz_, Event.unlock]) := by
  obtain ⟨vz, wn, lm, lk, rt⟩ := s
  by_cases h : GetCameraPoseWidgetName cam_id ∈ wn <;> cases lk <;>
    by_cases hv : vz.has (GetCameraPoseWidgetName cam_id) = true <;>
    simp [UpdateCameraPose, widget_names_count, viz_lock_lock, viz_lock_unlock,
      viz_updateWidgetPose, CHECK, emit, getObj, setObj, fail, bind_apply, pure_apply,
      ite_apply_ctx, Outcome.events, Outcome.err, h, hv]

theorem AddOrUpdateLandmark_apply (lmk_id : uid_t) (t : Vector3d) (s : Visualizer3D)
    (ev : List Event) :
    AddOrUpdateLandmark lmk_id t { obj := s, events := ev } = Outcome.ok ()
      { obj := { s with
          lmk_data_ :=
            if (lmk_find lmk_id s.lmk_data_).isSome then s.lmk_data_
            else (lmk_id, LandmarkData.new lmk_id t) :: s.lmk_data_ },
        events := ev ++ [Event.lmk_data_] } := by
  simp [AddOrUpdateLandmark, lmk_data_emplace, emit, getObj, setObj, bind_apply]

theorem AddLandmarkObservation_apply_absent (cam_id lmk_id : uid_t) (o : LandmarkObservation)
    (s : Visualizer3D) (ev : List Event) (h : lmk_find lmk_id s.lmk_data_ = none) :
    AddLandmarkObservation cam_id lmk_id o { obj := s, events := ev } =
      Outcome.abort Err.unknownLandmark { obj := s, events := ev ++ [Event.lmk_data_] } := by
  simp [AddLandmarkObservation, lmk_data_count, CHECK, emit, getObj, fail, bind_apply,
    pure_apply, h]

theorem AddLandmarkObservation_apply_present (cam_id lmk_id : uid_t) (o : LandmarkObservation)
    (s : Visualizer3D) (ev : List Event) (d : LandmarkData)
    (h : lmk_find lmk_id s.lmk_data_ = some d) :
    AddLandmarkObservation cam_id lmk_id o { obj := s, events := ev } = Outcome.ok ()
      { obj := { s with
          lmk_data_ := lmk_modify lmk_id
            (fun d => { d with obs_cam_ids := d.obs_cam_ids ++ [cam_id] }) s.lmk_data_ },
        events := ev ++ [Event.lmk_data_, Event.lmk_data_] } := by
  simp [AddLandmarkObservation, lmk_data_count, lmk_data_at_obs_emplace_back, CHECK, emit,
    getObj, setObj, fail, bind_apply, pure_apply, h]

theorem Start_apply (s : Visualizer3D) (ev : List Event) :
    Start { obj := s, events := ev } = Outcome.ok ()
      { obj := { s with
          viz_ := { (s.viz_.show "world_origin"
              { K := none, image := none, scale := 1, color := Color.white }
              Affine3d.Identity) with full_screen := true, background := Color.black },
          redraw_thread_ := true },
        events := ev ++ [Event.viz_, Event.viz_, Event.viz_] } := by
  simp [Start, viz_showWidget, viz_setFullScreen, viz_setBackgroundColor, emit, getObj, setObj,
    bind_apply]

/-! ## Lookup in the landmark records: lemmas -/

theorem lmk_find_modify_self (k : uid_t) (f : LandmarkData → LandmarkData)
    (l : List (uid_t × LandmarkData)) (d : LandmarkData) (h : lmk_find k l = some d) :
    lmk_find k (lmk_modify k f l) = some (f d) := by
  induction l with
  | nil => simp [lmk_find] at h
  | cons x xs ih =>
    obtain ⟨k1, d1⟩ := x
    by_cases hk : k1 = k
    · simp [lmk_find, hk] at h
      simp [lmk_find, lmk_modify, hk, h]
    · simp [lmk_find, hk] at h
      simp [lmk_find, lmk_modify, hk, ih h]

theorem lmk_find_modify_of_ne (k j : uid_t) (f : LandmarkData → LandmarkData)
    (l : List (uid_t × LandmarkData)) (h : j ≠ k) :
    lmk_find j (lmk_modify k f l) = lmk_find j l := by
  induction l with
  | nil => rfl
  | cons x xs ih =>
    obtain ⟨k1, d1⟩ := x
    by_cases hk : k1 = k
    · have hj : ¬ k1 = j := fun e => h (e.symm.trans hk)
      subst hk
      simp [lmk_find, lmk_modify, hj]
    · by_cases hj : k1 = j
      · subst hj
        simp [lmk_find, lmk_modify, hk]
      · simp [lmk_find, lmk_modify, hk, hj, ih]

/-! ## Consistency of the object along a run -/

theorem Consistent_init : Visualizer3D.init.Consistent := by
  simp [Visualizer3D.Consistent, Visualizer3D.init]

theorem Consistent_not_mem_camera (s : Visualizer3D) (h : s.Consistent) (c : uid_t) :
    GetCameraPoseWidgetName c ∉ s.widget_names_ :=
  fun hm => GetCameraPoseWidgetName_ne_cam_realtime c (h.2.1 _ hm)

theorem AddCameraPose_consistent (c : uid_t) (im : Image1b) (T : Matrix4d) (k : Bool)
    (s : Visualizer3D) (ev : List Event) (h : s.Consistent) :
    ∃ s1 ev1, AddCameraPose c im T k { obj := s, events := ev } =
        Outcome.ok () { obj := s1, events := ev1 } ∧ s1.Consistent ∧
      s1.viz_.count "cam_realtime" = 1 ∧
      s1.viz_.poseOf "cam_realtime" = some (EigenMatrix4dToCvAffine3d T) ∧
      (k = true → s1.viz_.poseOf (GetCameraPoseWidgetName c) =
        some (EigenMatrix4dToCvAffine3d T)) ∧
      (∀ d, ¬(d = c ∧ k = true) →
        s1.viz_.poseOf (GetCameraPoseWidgetName d) = s.viz_.poseOf (GetCameraPoseWidgetName d)) ∧
      s1.lmk_data_ = s.lmk_data_ := by
  obtain ⟨hl, hn, hw⟩ := h
  refine ⟨_, _, AddCameraPose_apply c im T k s ev hl hw, ?_, ?_, ?_, ?_, ?_, rfl⟩
  · refine ⟨hl, ?_, ?_⟩
    · intro n hn1
      simp only at hn1
      split at hn1
      · exact hn n hn1
      · rcases List.mem_cons.1 hn1 with h1 | h1
        · exact h1
        · exact hn n h1
    · intro _
      simp only
      cases k
      · simp [Viz3d.has_show_self]
      · simp only [if_true]
        exact Viz3d.has_show_of_has _ _ _ _ _ (Viz3d.has_show_self _ _ _ _)
  · simp only
    cases k
    · simp [Viz3d.count_show_self]
    · simp only [if_true]
      rw [Viz3d.count_show_of_ne _ _ _ _ _ (GetCameraPoseWidgetName_ne_cam_realtime c).symm,
        Viz3d.count_show_self]
  · simp only
    cases k
    · simp [Viz3d.poseOf_show_self]
    · simp only [if_true]
      rw [Viz3d.poseOf_show_of_ne _ _ _ _ _ (GetCameraPoseWidgetName_ne_cam_realtime c).symm,
        Viz3d.poseOf_show_self]
  · intro hk
    subst hk
    simp only [if_true]
    exact Viz3d.poseOf_show_self _ _ _ _
  · intro d hd
    have hr : GetCameraPoseWidgetName d ≠ "cam_realtime" :=
      GetCameraPoseWidgetName_ne_cam_realtime d
    have h1 : ∀ v : Viz3d, ((if "cam_realtime" ∈ s.widget_names_ then v.erase "cam_realtime"
        else v).show "cam_realtime" (AddCameraPose.widget_realtime im)
        (EigenMatrix4dToCvAffine3d T)).poseOf (GetCameraPoseWidgetName d) =
        v.poseOf (GetCameraPoseWidgetName d) := by
      intro v
      rw [Viz3d.poseOf_show_of_ne _ _ _ _ _ hr]
      split
      · exact Viz3d.poseOf_erase_of_ne _ _ _ hr
      · rfl
    simp only
    cases k
    · simpa using h1 s.viz_
    · have hdc : d ≠ c := fun e => hd ⟨e, rfl⟩
      have hne : GetCameraPoseWidgetName d ≠ GetCameraPoseWidgetName c :=
        fun e => hdc (GetCameraPoseWidgetName_injective e)
      simp only [if_true]
      rw [Viz3d.poseOf_show_of_ne _ _ _ _ _ hne]
      exact h1 s.viz_

theorem Op_call_consistent (op : Op) (s s1 : Visualizer3D) (ev ev1 : List Event)
    (h : s.Consistent)
    (hr : op.call { obj := s, events := ev } = Outcome.ok () { obj := s1, events := ev1 }) :
    s1.Consistent := by
  cases op with
  | Start =>
    simp only [Op.call, Start_apply, Outcome.ok.injEq, Ctx.mk.injEq, true_and] at hr
    obtain ⟨hs, _⟩ := hr
    subst hs
    obtain ⟨hl, hn, hw⟩ := h
    refine ⟨hl, hn, ?_⟩
    intro hm
    have := Viz3d.has_show_of_has s.viz_ "world_origin" "cam_realtime"
      { K := none, image := none, scale := 1, color := Color.white } Affine3d.Identity (hw hm)
    simpa [Viz3d.has] using this
  | AddCameraPose c im T k =>
    obtain ⟨s2, ev2, h2, hc, _⟩ := AddCameraPose_consistent c im T k s ev h
    simp only [Op.call, h2, Outcome.ok.injEq, Ctx.mk.injEq, true_and] at hr
    rw [← hr.1]
    exact hc
  | UpdateCameraPose c T =>
    simp [Op.call, UpdateCameraPose_apply_absent c T s ev (Consistent_not_mem_camera s h c)]
      at hr
  | AddOrUpdateLandmark l t =>
    simp only [Op.call, AddOrUpdateLandmark_apply, Outcome.ok.injEq, Ctx.mk.injEq,
      true_and] at hr
    rw [← hr.1]
    exact h
  | AddLandmarkObservation c l o =>
    cases hf : lmk_find l s.lmk_data_ with
    | none =>
      simp [Op.call, AddLandmarkObservation_apply_absent c l o s ev hf] at hr
    | some d =>
      simp only [Op.call, AddLandmarkObservation_apply_present c l o s ev d hf,
        Outcome.ok.injEq, Ctx.mk.injEq, true_and] at hr
      rw [← hr.1]
      exact h

theorem run_nil (c : Ctx) : run [] c = Outcome.ok () c := rfl

theorem run_cons_eq (op : Op) (rest : List Op) (c : Ctx) :
    run (op :: rest) c = VizM.bind op.call (fun _ => run rest) c := by
  rw [run]
  rfl

theorem run_cons_ok (op : Op) (rest : List Op) (c c1 : Ctx) (a : Unit)
    (h : op.call c = Outcome.ok a c1) : run (op :: rest) c = run rest c1 := by
  rw [run]
  show VizM.bind _ _ c = _
  simp only [VizM.bind, h]

theorem run_cons_abort (op : Op) (rest : List Op) (c c1 : Ctx) (e : Err)
    (h : op.call c = Outcome.abort e c1) : run (op :: rest) c = Outcome.abort e c1 := by
  rw [run]
  show VizM.bind _ _ c = _
  simp only [VizM.bind, h]

theorem run_consistent (ops : List Op) :
    ∀ (s s1 : Visualizer3D) (ev ev1 : List Event), s.Consistent →
      run ops { obj := s, events := ev } = Outcome.ok () { obj := s1, events := ev1 } →
      s1.Consistent := by
  induction ops with
  | nil =>
    intro s s1 ev ev1 h hr
    simp only [run_nil, Outcome.ok.injEq, Ctx.mk.injEq, true_and] at hr
    rw [← hr.1]
    exact h
  | cons op rest ih =>
    intro s s1 ev ev1 h hr
    cases hc : op.call { obj := s, events := ev } with
    | ok a c1 =>
      rw [run_cons_ok op rest _ c1 a hc] at hr
      obtain ⟨s2, ev2⟩ := c1
      exact ih s2 s1 ev2 ev1 (Op_call_consistent op s s2 ev ev2 h hc) hr
    | abort e c1 =>
      rw [run_cons_abort op rest _ c1 e hc] at hr
      cases hr

theorem exec_ok_of_err_none (m : VizM Unit) (s : Visualizer3D) (h : (exec m s).err = none) :
    ∃ s1 ev1, m { obj := s, events := [] } = Outcome.ok () { obj := s1, events := ev1 } ∧
      (exec m s).obj = s1 := by
  unfold exec at h ⊢
  cases hm : m { obj := s, events := [] } with
  | ok a c1 => exact ⟨c1.obj, c1.events, rfl, rfl⟩
  | abort e c1 => rw [hm] at h; simp [Outcome.err] at h

theorem reachable_consistent (ops : List Op)
    (h : (exec (run ops) Visualizer3D.init).err = none) :
    (exec (run ops) Visualizer3D.init).obj.Consistent := by
  obtain ⟨s1, ev1, hr, ho⟩ := exec_ok_of_err_none _ _ h
  rw [ho]
  exact run_consistent ops _ _ _ _ Consistent_init hr

theorem UpdateCameraPose_exec_absent (c : uid_t) (T : Matrix4d) (s : Visualizer3D)
    (h : GetCameraPoseWidgetName c ∉ s.widget_names_) :
    exec (UpdateCameraPose c T) s =
      Outcome.abort Err.unknownCamera { obj := s, events := [Event.widget_names_] } := by
  unfold exec
  rw [UpdateCameraPose_apply_absent c T s [] h]
  rfl

theorem EigenMatrix4dToCvAffine3d_matrix (T : Matrix4d) :
    Matrix4d.topRows (EigenMatrix4dToCvAffine3d T).matrix = Matrix4d.topRows T ∧
    Matrix4d.bottomRow (EigenMatrix4dToCvAffine3d T).matrix = (0, 0, 0, 1) ∧
    (Matrix4d.bottomRow T = (0, 0, 0, 1) → (EigenMatrix4dToCvAffine3d T).matrix = T) := by
  obtain ⟨⟨a00, a01, a02, a03⟩, ⟨a10, a11, a12, a13⟩, ⟨a20, a21, a22, a23⟩, r3⟩ := T
  refine ⟨rfl, rfl, ?_⟩
  intro h
  simp only [Matrix4d.bottomRow] at h
  subst h
  rfl

theorem run_camera_calls (calls : List CameraCall) :
    ∀ (s : Visualizer3D) (ev : List Event), s.Consistent →
      ∃ s1 ev1, run (calls.map CameraCall.op) { obj := s, events := ev } =
          Outcome.ok () { obj := s1, events := ev1 } ∧ s1.Consistent ∧
        (∀ h : calls ≠ [], s1.viz_.count "cam_realtime" = 1 ∧
          s1.viz_.poseOf "cam_realtime" =
            some (EigenMatrix4dToCvAffine3d (calls.getLast h).T_world_cam)) ∧
        (∀ c, (∀ x ∈ calls, ¬(x.cam_id = c ∧ x.is_keyframe = true)) →
          s1.viz_.poseOf (GetCameraPoseWidgetName c) =
            s.viz_.poseOf (GetCameraPoseWidgetName c)) := by
  induction calls with
  | nil =>
    intro s ev h
    exact ⟨s, ev, rfl, h, fun h => absurd rfl h, fun _ _ => rfl⟩
  | cons x rest ih =>
    intro s ev h
    obtain ⟨s1, ev1, h1, hc1, hcount, hpose, _, hframe, _⟩ :=
      AddCameraPose_consistent x.cam_id x.left_image x.T_world_cam x.is_keyframe s ev h
    obtain ⟨s2, ev2, h2, hc2, hlast, hframe2⟩ := ih s1 ev1 hc1
    refine ⟨s2, ev2, ?_, hc2, ?_, ?_⟩
    · rw [List.map_cons, run_cons_ok x.op _ _ _ () h1]
      exact h2
    · intro _
      cases rest with
      | nil =>
        simp only [List.map_nil, run_nil, Outcome.ok.injEq, Ctx.mk.injEq, true_and] at h2
        rw [← h2.1]
        exact ⟨hcount, hpose⟩
      | cons y ys =>
        have := hlast (List.cons_ne_nil y ys)
        simpa [List.getLast_cons (List.cons_ne_nil y ys)] using this
    · intro c hall
      rw [hframe2 c (fun y hy => hall y (List.mem_cons_of_mem _ hy))]
      have hx := hall x (List.mem_cons_self _ _)
      exact hframe c (fun e => hx ⟨e.1.symm, e.2⟩)

/-! ## The claims -/

/-- C1, the code at the failing input: on the empty registry,
`AddOrUpdateLandmark(7, (0,0,1))` followed by `AddOrUpdateLandmark(7, (0,0,2))`
leaves the record of landmark 7 with the first position `(0,0,1)`, which differs
from the second one: `emplace` does not replace an existing record. -/
theorem AddOrUpdateLandmark_second_write_lost :
    (lmk_find 7 (exec (run [Op.AddOrUpdateLandmark 7 (0, 0, 1),
        Op.AddOrUpdateLandmark 7 (0, 0, 2)]) Visualizer3D.init).obj.lmk_data_).map
        LandmarkData.t_world_lmk = some (0, 0, 1) ∧
      ((0, 0, 1) : Vector3d) ≠ (0, 0, 2) := by
  decide!

/-- C2, the code at the failing input: from the initial state,
`AddCameraPose(1, no image, identity, is_keyframe = true)` returns, and the
following `UpdateCameraPose(1, translate(2,0,0))` stops at its existence check
with the unknown-camera error; the keyframe visual keeps the identity pose. -/
theorem UpdateCameraPose_after_keyframe_fails :
    (exec (AddCameraPose 1 Image1b.none Matrix4d.Identity true) Visualizer3D.init).err = none ∧
    (exec (run [Op.AddCameraPose 1 Image1b.none Matrix4d.Identity true,
        Op.UpdateCameraPose 1 (Matrix4d.translate 2 0 0)]) Visualizer3D.init).err =
      some Err.unknownCamera ∧
    (exec (run [Op.AddCameraPose 1 Image1b.none Matrix4d.Identity true,
        Op.UpdateCameraPose 1 (Matrix4d.translate 2 0 0)]) Visualizer3D.init).obj.viz_.poseOf
        (GetCameraPoseWidgetName 1) = some (EigenMatrix4dToCvAffine3d Matrix4d.Identity) := by
  decide!

/-- C3: `AddLandmarkObservation(cam_id, lmk_id, obs)` stops with the
unknown-landmark error exactly when `lmk_id` has no record, and then the object
is unchanged; when `lmk_id` has a record the call returns, the observation
sequence of that record is the old one with `cam_id` appended, every other
record is as before and nothing else of the object changes.  In the scenario
`AddOrUpdateLandmark(7, (0,0,1))`, then observations from cameras 1 and 2, the
sequence of landmark 7 is `[1, 2]`. -/
theorem AddLandmarkObservation_spec (s : Visualizer3D) (cam_id lmk_id : uid_t)
    (obs : LandmarkObservation) :
    ((exec (AddLandmarkObservation cam_id lmk_id obs) s).err = some Err.unknownLandmark ↔
      lmk_find lmk_id s.lmk_data_ = none) ∧
    (lmk_find lmk_id s.lmk_data_ = none →
      (exec (AddLandmarkObservation cam_id lmk_id obs) s).obj = s) ∧
    (∀ d, lmk_find lmk_id s.lmk_data_ = some d →
      (exec (AddLandmarkObservation cam_id lmk_id obs) s).err = none ∧
      lmk_find lmk_id (exec (AddLandmarkObservation cam_id lmk_id obs) s).obj.lmk_data_ =
        some { d with obs_cam_ids := d.obs_cam_ids ++ [cam_id] } ∧
      (∀ k, k ≠ lmk_id →
        lmk_find k (exec (AddLandmarkObservation cam_id lmk_id obs) s).obj.lmk_data_ =
          lmk_find k s.lmk_data_) ∧
      (exec (AddLandmarkObservation cam_id lmk_id obs) s).obj.viz_ = s.viz_ ∧
      (exec (AddLandmarkObservation cam_id lmk_id obs) s).obj.widget_names_ =
        s.widget_names_) ∧
    (lmk_find 7 (exec (run [Op.AddOrUpdateLandmark 7 (0, 0, 1),
        Op.AddLandmarkObservation 1 7 obs, Op.AddLandmarkObservation 2 7 obs])
        Visualizer3D.init).obj.lmk_data_).map LandmarkData.obs_cam_ids = some [1, 2] := by
  refine ⟨?_, ?_, ?_, ?_⟩
  · cases hf : lmk_find lmk_id s.lmk_data_ with
    | none =>
      simp [exec, AddLandmarkObservation_apply_absent cam_id lmk_id obs s [] hf, Outcome.err]
    | some d =>
      simp [exec, AddLandmarkObservation_apply_present cam_id lmk_id obs s [] d hf,
        Outcome.err]
  · intro hf
    simp [exec, AddLandmarkObservation_apply_absent cam_id lmk_id obs s [] hf, Outcome.obj]
  · intro d hf
    simp only [exec, AddLandmarkObservation_apply_present cam_id lmk_id obs s [] d hf,
      Outcome.err, Outcome.obj, true_and]
    refine ⟨?_, ?_, trivial⟩
    · exact lmk_find_modify_self lmk_id _ _ d hf
    · intro k hk
      exact lmk_find_modify_of_ne lmk_id k _ _ hk
  · simp [exec, run_cons_eq, run_nil, VizM.bind, Op.call, AddOrUpdateLandmark_apply,
      AddLandmarkObservation, lmk_data_count, lmk_data_at_obs_emplace_back, CHECK, emit,
      getObj, setObj, fail, bind_apply, pure_apply, Visualizer3D.init, lmk_find, lmk_modify,
      LandmarkData.new, Outcome.obj]

/-- C3, at a concrete input: on the registry holding landmark 7 an observation
from camera 1 returns and the sequence of landmark 7 becomes `[1]`. -/
theorem AddLandmarkObservation_spec_witness :
    lmk_find 7 [(7, LandmarkData.new 7 (0, 0, 1))] = some (LandmarkData.new 7 (0, 0, 1)) ∧
    (exec (AddLandmarkObservation 1 7 { pixel := (0, 0) })
        { Visualizer3D.init with lmk_data_ := [(7, LandmarkData.new 7 (0, 0, 1))] }).err =
      none ∧
    lmk_find 7 (exec (AddLandmarkObservation 1 7 { pixel := (0, 0) })
        { Visualizer3D.init with
          lmk_data_ := [(7, LandmarkData.new 7 (0, 0, 1))] }).obj.lmk_data_ =
      some { LandmarkData.new 7 (0, 0, 1) with obs_cam_ids := [] ++ [1] } :=
  have h := (AddLandmarkObservation_spec
    { Visualizer3D.init with lmk_data_ := [(7, LandmarkData.new 7 (0, 0, 1))] } 1 7
    { pixel := (0, 0) }).2.2.1 (LandmarkData.new 7 (0, 0, 1)) (by decide)
  ⟨by decide, h.1, h.2.1⟩

/-- C4: in a state reached from the initial one by calls among which no
`AddCameraPose(c, _, _, is_keyframe = true)` occurs, `UpdateCameraPose(c, pose)`
stops with the unknown-camera error, leaves the object as it was, makes no
renderer call (its only event is the read of `widget_names_`), and this outcome
is the same for every pose. -/
theorem UpdateCameraPose_unknown_camera (ops : List Op) (c : uid_t)
    (hrun : (exec (run ops) Visualizer3D.init).err = none)
    (hnew : ∀ im T, Op.AddCameraPose c im T true ∉ ops) (T : Matrix4d) :
    (exec (UpdateCameraPose c T) (exec (run ops) Visualizer3D.init).obj).err =
      some Err.unknownCamera ∧
    (exec (UpdateCameraPose c T) (exec (run ops) Visualizer3D.init).obj).obj =
      (exec (run ops) Visualizer3D.init).obj ∧
    (exec (UpdateCameraPose c T) (exec (run ops) Visualizer3D.init).obj).events =
      [Event.widget_names_] ∧
    Event.viz_ ∉ (exec (UpdateCameraPose c T) (exec (run ops) Visualizer3D.init).obj).events ∧
    ∀ T1, exec (UpdateCameraPose c T1) (exec (run ops) Visualizer3D.init).obj =
      exec (UpdateCameraPose c T) (exec (run ops) Visualizer3D.init).obj := by
  have _ := hnew
  have hc := Consistent_not_mem_camera _ (reachable_consistent ops hrun) c
  have h := fun T1 => UpdateCameraPose_exec_absent c T1 _ hc
  refine ⟨?_, ?_, ?_, ?_, ?_⟩
  · rw [h T]; rfl
  · rw [h T]; rfl
  · rw [h T]; rfl
  · rw [h T]; simp [Outcome.events]
  · intro T1
    rw [h T, h T1]

/-- C4, at a concrete input: after `Start` and a non-keyframe pose of camera 2,
`UpdateCameraPose(2, identity)` stops with the unknown-camera error. -/
theorem UpdateCameraPose_unknown_camera_witness :
    (exec (UpdateCameraPose 2 Matrix4d.Identity)
      (exec (run [Op.Start, Op.AddCameraPose 2 Image1b.none Matrix4d.Identity false])
        Visualizer3D.init).obj).err = some Err.unknownCamera :=
  (UpdateCameraPose_unknown_camera
    [Op.Start, Op.AddCameraPose 2 Image1b.none Matrix4d.Identity false] 2 (by decide!)
    (by simp) Matrix4d.Identity).1

/-- C5: after a non-empty sequence of `AddCameraPose` calls from the initial
state, every call has returned, the renderer holds exactly one widget named
"cam_realtime", and the pose `p` of that widget is the pose argument `T` of the
last call: the rotation and translation rows of the matrix of `p` are the first
three rows of `T`, its last row is `(0, 0, 0, 1)`, and the whole 4x4 matrix of
`p` is `T` whenever `T` has the last row `(0, 0, 0, 1)` of a rigid transform. -/
theorem realtime_visual_unique_and_latest (calls : List CameraCall) (h : calls ≠ []) :
    (exec (run (calls.map CameraCall.op)) Visualizer3D.init).err = none ∧
    (exec (run (calls.map CameraCall.op)) Visualizer3D.init).obj.viz_.count "cam_realtime" =
      1 ∧
    ∃ p : Affine3d,
      (exec (run (calls.map CameraCall.op)) Visualizer3D.init).obj.viz_.poseOf
        "cam_realtime" = some p ∧
      Matrix4d.topRows p.matrix = Matrix4d.topRows (calls.getLast h).T_world_cam ∧
      Matrix4d.bottomRow p.matrix = (0, 0, 0, 1) ∧
      (Matrix4d.bottomRow (calls.getLast h).T_world_cam = (0, 0, 0, 1) →
        p.matrix = (calls.getLast h).T_world_cam) := by
  obtain ⟨s1, ev1, hr, _, hlast, _⟩ := run_camera_calls calls Visualizer3D.init []
    Consistent_init
  simp only [exec, hr, Outcome.err, Outcome.obj, true_and]
  exact ⟨(hlast h).1, _, (hlast h).2,
    EigenMatrix4dToCvAffine3d_matrix (calls.getLast h).T_world_cam⟩

/-- C5, at a concrete input: a keyframe pose at the identity followed by a
non-keyframe pose at `translate(1,0,0)` leaves the realtime widget with the
matrix `translate(1,0,0)`. -/
theorem realtime_visual_unique_and_latest_witness :
    ∃ p : Affine3d,
      (exec (run ([CameraCall.mk 1 Image1b.none Matrix4d.Identity true,
          CameraCall.mk 1 Image1b.none (Matrix4d.translate 1 0 0) false].map CameraCall.op))
        Visualizer3D.init).obj.viz_.poseOf "cam_realtime" = some p ∧
      p.matrix = Matrix4d.translate 1 0 0 :=
  match (realtime_visual_unique_and_latest
    [CameraCall.mk 1 Image1b.none Matrix4d.Identity true,
      CameraCall.mk 1 Image1b.none (Matrix4d.translate 1 0 0) false] (by decide)).2.2 with
  | ⟨p, hp, _, _, himp⟩ => ⟨p, hp, himp (by decide)⟩

/-- C7: `GetCameraPoseWidgetName` and `GetLandmarkWidgetName` are injective, no
camera-pose name is a landmark name, and neither function returns
"cam_realtime" or "world_origin". -/
theorem widget_names_collision_free :
    Function.Injective GetCameraPoseWidgetName ∧
    Function.Injective GetLandmarkWidgetName ∧
    (∀ c l, GetCameraPoseWidgetName c ≠ GetLandmarkWidgetName l) ∧
    (∀ c, GetCameraPoseWidgetName c ≠ "cam_realtime" ∧
      GetCameraPoseWidgetName c ≠ "world_origin") ∧
    (∀ l, GetLandmarkWidgetName l ≠ "cam_realtime" ∧
      GetLandmarkWidgetName l ≠ "world_origin") :=
  ⟨GetCameraPoseWidgetName_injective, GetLandmarkWidgetName_injective,
    GetCameraPoseWidgetName_ne_GetLandmarkWidgetName,
    fun c => ⟨GetCameraPoseWidgetName_ne_cam_realtime c,
      GetCameraPoseWidgetName_ne_world_origin c⟩,
    fun l => ⟨GetLandmarkWidgetName_ne_cam_realtime l,
      GetLandmarkWidgetName_ne_world_origin l⟩⟩

/-- C7, at concrete ids: the camera names of ids 1 and 10 differ, and the camera
name of id 7 is not the landmark name of id 7. -/
theorem widget_names_collision_free_witness :
    GetCameraPoseWidgetName 1 ≠ GetCameraPoseWidgetName 10 ∧
    GetCameraPoseWidgetName 7 ≠ GetLandmarkWidgetName 7 :=
  ⟨fun h => absurd (widget_names_collision_free.1 h) (by decide),
    widget_names_collision_free.2.2.1 7 7⟩

/-- C9: `AddOrUpdateLandmark(L, p)` always returns; every record that existed
is found unchanged afterwards (its observation sequence included, also the
record of `L`); for every id other than `L` the lookup is as before, so no other
record is added or removed; and when `L` had no record, its new record has an
empty observation sequence. -/
theorem AddOrUpdateLandmark_frame (s : Visualizer3D) (L : uid_t) (p : Vector3d) :
    (exec (AddOrUpdateLandmark L p) s).err = none ∧
    (∀ k d, lmk_find k s.lmk_data_ = some d →
      lmk_find k (exec (AddOrUpdateLandmark L p) s).obj.lmk_data_ = some d) ∧
    (∀ k, k ≠ L →
      lmk_find k (exec (AddOrUpdateLandmark L p) s).obj.lmk_data_ =
        lmk_find k s.lmk_data_) ∧
    (lmk_find L s.lmk_data_ = none →
      lmk_find L (exec (AddOrUpdateLandmark L p) s).obj.lmk_data_ =
        some { lmk_id := L, t_world_lmk := p, obs_cam_ids := [] }) := by
  simp only [exec, AddOrUpdateLandmark_apply, Outcome.err, Outcome.obj, true_and]
  refine ⟨?_, ?_, ?_⟩
  · intro k d hk
    split
    · exact hk
    · rename_i hn
      have hkL : ¬ L = k := by
        intro e
        subst e
        simp [hk] at hn
      simp [lmk_find, hkL, hk]
  · intro k hk
    split
    · rfl
    · simp [lmk_find, Ne.symm hk]
  · intro hn
    simp [hn, lmk_find, LandmarkData.new]

/-- C9, at a concrete input: landmark 7 with observations `[1, 2]` keeps them
when `AddOrUpdateLandmark(7, (0,0,2))` is called. -/
theorem AddOrUpdateLandmark_frame_witness :
    lmk_find 7 (exec (AddOrUpdateLandmark 7 (0, 0, 2))
      { Visualizer3D.init with
        lmk_data_ := [(7, LandmarkData.mk 7 (0, 0, 1) [1, 2])] }).obj.lmk_data_ =
      some (LandmarkData.mk 7 (0, 0, 1) [1, 2]) :=
  (AddOrUpdateLandmark_frame
    { Visualizer3D.init with lmk_data_ := [(7, LandmarkData.mk 7 (0, 0, 1) [1, 2])] } 7
    (0, 0, 2)).2.1 7 (LandmarkData.mk 7 (0, 0, 1) [1, 2]) (by decide)

/-- C10: in every state reached from the initial one by `Start`,
`AddCameraPose`, `UpdateCameraPose`, `AddOrUpdateLandmark` and
`AddLandmarkObservation` calls, `widget_names_` only holds "cam_realtime", no
camera name "cam_<id>" is in it, and `UpdateCameraPose` stops at its existence
check for every camera id and pose. -/
theorem widget_names_only_realtime (ops : List Op)
    (hrun : (exec (run ops) Visualizer3D.init).err = none) :
    (∀ n ∈ (exec (run ops) Visualizer3D.init).obj.widget_names_, n = "cam_realtime") ∧
    (∀ c, GetCameraPoseWidgetName c ∉ (exec (run ops) Visualizer3D.init).obj.widget_names_) ∧
    ∀ c T, (exec (UpdateCameraPose c T) (exec (run ops) Visualizer3D.init).obj).err =
      some Err.unknownCamera := by
  have hc := reachable_consistent ops hrun
  refine ⟨hc.2.1, Consistent_not_mem_camera _ hc, ?_⟩
  intro c T
  rw [UpdateCameraPose_exec_absent c T _ (Consistent_not_mem_camera _ hc c)]
  rfl

/-- C10, at a concrete input: after `Start`, a keyframe pose of camera 3 and a
landmark, `widget_names_` is `["cam_realtime"]` and `UpdateCameraPose(3, _)`
stops with the unknown-camera error. -/
theorem widget_names_only_realtime_witness :
    (exec (run [Op.Start, Op.AddCameraPose 3 Image1b.none Matrix4d.Identity true,
      Op.AddOrUpdateLandmark 7 (0, 0, 1)]) Visualizer3D.init).obj.widget_names_ =
      ["cam_realtime"] ∧
    (exec (UpdateCameraPose 3 Matrix4d.Identity)
      (exec (run [Op.Start, Op.AddCameraPose 3 Image1b.none Matrix4d.Identity true,
        Op.AddOrUpdateLandmark 7 (0, 0, 1)]) Visualizer3D.init).obj).err =
      some Err.unknownCamera :=
  ⟨by decide!,
    (widget_names_only_realtime [Op.Start,
      Op.AddCameraPose 3 Image1b.none Matrix4d.Identity true,
      Op.AddOrUpdateLandmark 7 (0, 0, 1)] (by decide!)).2.2 3 Matrix4d.Identity⟩

theorem AddCameraPose_events (c : uid_t) (im : Image1b) (T : Matrix4d) (k : Bool)
    (s : Visualizer3D) :
    underLock Event.isRenderer false (exec (AddCameraPose c im T k) s).events = true ∧
    underLock Event.isRegistry false (exec (AddCameraPose c im T k) s).events = true ∧
    ((exec (AddCameraPose c im T k) s).err = none →
      heldAfter false (exec (AddCameraPose c im T k) s).events = false) := by
  obtain ⟨vz, wn, lm, lk, rt⟩ := s
  by_cases h : "cam_realtime" ∈ wn <;> cases lk <;> cases k <;>
    by_cases hv : vz.has "cam_realtime" = true <;>
    simp [exec, AddCameraPose, viz_lock_lock, viz_lock_unlock, widget_names_count,
      widget_names_insert, viz_removeWidget, viz_showWidget, CHECK, emit, getObj, setObj, fail,
      bind_apply, pure_apply, ite_apply_ctx, Outcome.events, Outcome.err, underLock, heldAfter,
      Event.isRenderer, Event.isRegistry, h, hv]

/-- C8 as stated fails: the event sequence of `AddOrUpdateLandmark` on the
initial state is the single access of `lmk_data_`, made without the lock, and
that of a failing `UpdateCameraPose` is the single read of `widget_names_`, made
before any lock; neither satisfies the locking discipline. -/
theorem registry_touched_without_lock :
    (exec (AddOrUpdateLandmark 7 (0, 0, 1)) Visualizer3D.init).events = [Event.lmk_data_] ∧
    lockingDiscipline (exec (AddOrUpdateLandmark 7 (0, 0, 1)) Visualizer3D.init).events =
      false ∧
    (exec (AddLandmarkObservation 1 7 { pixel := (0, 0) })
        (exec (AddOrUpdateLandmark 7 (0, 0, 1)) Visualizer3D.init).obj).events =
      [Event.lmk_data_, Event.lmk_data_] ∧
    lockingDiscipline (exec (AddLandmarkObservation 1 7 { pixel := (0, 0) })
        (exec (AddOrUpdateLandmark 7 (0, 0, 1)) Visualizer3D.init).obj).events = false ∧
    (exec (UpdateCameraPose 1 Matrix4d.Identity) Visualizer3D.init).events =
      [Event.widget_names_] ∧
    lockingDiscipline (exec (UpdateCameraPose 1 Matrix4d.Identity) Visualizer3D.init).events =
      false := by
  decide!

/-- C8, amended: in the event sequence of each of the four mutators, on every
state, every renderer call happens while the operation holds `viz_lock_`, and
an operation that returns has released the lock if it took it.  In
`AddCameraPose` every access of `widget_names_` also happens under the lock.
`AddOrUpdateLandmark` and `AddLandmarkObservation` only access `lmk_data_` and
never take the lock. -/
theorem renderer_calls_under_lock (s : Visualizer3D) :
    (∀ c im T k,
      underLock Event.isRenderer false (exec (AddCameraPose c im T k) s).events = true ∧
      underLock Event.isRegistry false (exec (AddCameraPose c im T k) s).events = true ∧
      ((exec (AddCameraPose c im T k) s).err = none →
        heldAfter false (exec (AddCameraPose c im T k) s).events = false)) ∧
    (∀ c T,
      underLock Event.isRenderer false (exec (UpdateCameraPose c T) s).events = true ∧
      ((exec (UpdateCameraPose c T) s).err = none →
        heldAfter false (exec (UpdateCameraPose c T) s).events = false)) ∧
    (∀ l p, (exec (AddOrUpdateLandmark l p) s).events = [Event.lmk_data_]) ∧
    (∀ c l o, ∀ e ∈ (exec (AddLandmarkObservation c l o) s).events, e = Event.lmk_data_) := by
  refine ⟨fun c im T k => AddCameraPose_events c im T k s, ?_, ?_, ?_⟩
  · intro c T
    obtain ⟨hmem, hok⟩ := UpdateCameraPose_events c T s
    constructor
    · simp only [List.mem_cons, List.mem_singleton, List.not_mem_nil, or_false] at hmem
      unfold exec
      rcases hmem with h | h | h <;> rw [h] <;> decide
    · intro he
      unfold exec at he ⊢
      rw [hok he]
      decide
  · intro l p
    simp [exec, AddOrUpdateLandmark_apply, Outcome.events]
  · intro c l o e he
    cases hf : lmk_find l s.lmk_data_ with
    | none =>
      simp [exec, AddLandmarkObservation_apply_absent c l o s [] hf, Outcome.events] at he
      exact he
    | some d =>
      simp [exec, AddLandmarkObservation_apply_present c l o s [] d hf, Outcome.events] at he
      exact he

/-- C8 amended, at a concrete input: `AddCameraPose` on the initial state
returns and has released the lock. -/
theorem renderer_calls_under_lock_witness :
    heldAfter false
      (exec (AddCameraPose 1 Image1b.none Matrix4d.Identity true) Visualizer3D.init).events =
      false :=
  ((renderer_calls_under_lock Visualizer3D.init).1 1 Image1b.none Matrix4d.Identity true).2.2
    (by decide!)

end vio
end bm
